import Mathlib

/-!
Shallow embedding of the mCaptcha widget frontend
(src/templates/widget/index.ts and src/templates/widget/service-worker.ts).

The orchestrator (index.ts) is modelled as deterministic step functions on an
explicit state record, parameterised by the outcomes of the two awaited
external calls (`fetchPoWConfig` and `sendWork`), together with an effect log
recording the externally visible actions of each step: config fetches issued,
challenges posted to the worker, proofs submitted, and tokens relayed to the
embedding page.

The compute worker (service-worker.ts) is modelled as a per-message handler
producing the list of messages it posts back.  The search primitive `prove`
(gen_pow) is not part of the given sources, so it is modelled from the spec.
-/

namespace MCaptchaWidget

/-- Modelled from the spec: the Challenge / PoWConfig record (types.ts is not
among the given sources).  Fields: identifying `key`, challenge `string`
(salt), `duration` (TTL seconds), and the difficulty data consumed by the
worker's search. -/
structure PoWConfig where
  key : String
  string : String
  duration : Nat
  difficultyFactor : Nat
  salt : String
deriving DecidableEq

/-- The Work / Proof record submitted to the verification service
(fields as used in index.ts: key, string, nonce, result). -/
structure Work where
  key : String
  string : String
  nonce : Nat
  result : String
deriving DecidableEq

/-- A tagged message on the worker / orchestrator channel.  The `type` tag is
an open string so that unknown tags can be stated; `nonce` and `result` are
the payload fields read by the orchestrator's `result` branch (junk for
messages of other types). -/
structure WorkerMsg where
  type : String
  nonce : Nat
  result : String
deriving DecidableEq

/-- The user-visible status indicator driven by CONST.messageText():
during / error / after, plus the initial blank state, and the checkbox. -/
inductive Indicator where
  | initial
  | during
  | error
  | after
deriving DecidableEq

/-- Orchestrator state: the module-level mutable variables of index.ts
(`LOCK`, `config`) plus the visible UI affordances (checkbox, status text). -/
structure OrchState where
  lock : Bool
  config : Option PoWConfig
  checked : Bool
  indicator : Indicator
deriving DecidableEq

/-- Externally visible effects of one orchestrator step: number of config
fetches issued, challenges posted to the worker, proofs submitted via
sendWork, and tokens relayed to the embedding page via sendToParent. -/
structure Effects where
  fetches : Nat
  posted : List PoWConfig
  submitted : List Work
  relayed : List String
deriving DecidableEq

/-- The empty effect log. -/
def Effects.none : Effects := ⟨0, [], [], []⟩

/-- The synchronous prefix of `solveCaptchaRunner`, executed before its first
awaited operation: `LOCK = true; CONST.messageText().during()`. -/
def solveCaptchaRunnerSync (s : OrchState) : OrchState :=
  { s with lock := true, indicator := Indicator.during }

/-- The remainder of `solveCaptchaRunner` from the awaited
`fetchPoWConfig()` on: on success the config is stored and posted to the
worker; on failure the catch branch shows the error text and clears LOCK. -/
def solveCaptchaRunnerAwait (fetch : Except Unit PoWConfig) (s : OrchState) :
    OrchState × Effects :=
  match fetch with
  | Except.ok c =>
      ({ s with config := some c }, ⟨1, [c], [], []⟩)
  | Except.error _ =>
      ({ s with indicator := Indicator.error, lock := false }, ⟨1, [], [], []⟩)

/-- `solveCaptchaRunner` (index.ts): sets LOCK, shows the during text,
awaits the config fetch, and posts the challenge to the worker; a throw is
caught, the error text is shown and LOCK is cleared. -/
def solveCaptchaRunner (fetch : Except Unit PoWConfig) (s : OrchState) :
    OrchState × Effects :=
  solveCaptchaRunnerAwait fetch (solveCaptchaRunnerSync s)

/-- `worker.onmessage` (index.ts): switches on the message's `type` tag.
`"init"` runs `solveCaptchaRunner`; `"result"` builds the proof from
`CONST.sitekey()`, the stored `config.string` and the message payload,
awaits `sendWork`, then relays the token, checks the checkbox, shows the
after text and clears LOCK.  If `sendWork` rejects, the handler's promise
rejects: no statement after the await runs, so the state is left unchanged.
If `config` is still undefined, reading `config.string` throws before the
submission, leaving the state unchanged.  Any other tag falls through the
switch: a no-op. -/
def workerOnmessageOrch (sitekey : String) (fetch : Except Unit PoWConfig)
    (send : Except Unit String) (m : WorkerMsg) (s : OrchState) :
    OrchState × Effects :=
  if m.type = "init" then
    solveCaptchaRunner fetch s
  else if m.type = "result" then
    match s.config with
    | none => (s, Effects.none)
    | some c =>
        let proof : Work := ⟨sitekey, c.string, m.nonce, m.result⟩
        match send with
        | Except.ok token =>
            ({ s with checked := true, indicator := Indicator.after,
                      lock := false },
             ⟨0, [], [proof], [token]⟩)
        | Except.error _ => (s, ⟨0, [], [proof], []⟩)
  else (s, Effects.none)

/-- The worker result payload: nonce plus digest (ServiceWorkerWork). -/
structure ServiceWorkerWork where
  nonce : Nat
  result : String
deriving DecidableEq

/-- Messages posted by the worker script at startup, before any challenge is
handled: `postMessage(ready)` near the top of service-worker.ts and
`postMessage(\x7btype: 'init'\x7d)` at the end of the script. -/
def workerStartupMessages : List WorkerMsg :=
  [⟨"ready", 0, ""⟩, ⟨"init", 0, ""⟩]

/-- Modelled from the spec: the search primitive `prove` (gen_pow) is not in
the given sources.  Per the spec the search space is the integers starting at
0 and incrementing, returning the first nonce satisfying the difficulty
predicate `meets`. -/
def proveNonce (meets : Nat → Bool) (h : ∃ n, meets n = true) : Nat :=
  Nat.find h

/-- The worker's per-message handler (`onmessage` in service-worker.ts),
parameterised by the outcome of the search primitive.  If the search throws,
the exception escapes the handler uncaught: nothing is posted.  On success
the handler posts progress messages (cadence modelled from the spec as one
per iteration) followed by exactly one `result` message carrying the found
nonce and digest. -/
def workerHandle (proveResult : Except Unit ServiceWorkerWork) :
    List WorkerMsg :=
  match proveResult with
  | Except.error _ => []
  | Except.ok w =>
      (List.range w.nonce).map (fun k => ⟨"progress", k, ""⟩)
        ++ [⟨"result", w.nonce, w.result⟩]

/-- The worker across a sequence of solve requests: the handler keeps no
state between messages, so the posted stream is the concatenation of the
per-request streams. -/
def workerRun (inputs : List (Except Unit ServiceWorkerWork)) :
    List WorkerMsg :=
  match inputs with
  | [] => []
  | i :: rest => workerHandle i ++ workerRun rest

/-- One full solve of a challenge by the worker, with the search primitive
modelled from the spec (`proveNonce`) and an opaque digest function. -/
def workerSolve (digest : Nat → String) (meets : Nat → Bool)
    (h : ∃ n, meets n = true) : List WorkerMsg :=
  workerHandle (Except.ok ⟨proveNonce meets h, digest (proveNonce meets h)⟩)

/-- A sample challenge, as in the spec's end-to-end scenario. -/
def sampleConfig : PoWConfig :=
  ⟨"k1", "salt1", 30, 1, "s1"⟩

/-- The idle orchestrator state: LOCK false, no config stored. -/
def idleState : OrchState :=
  ⟨false, none, false, Indicator.initial⟩

/-- An in-flight (solving) orchestrator state: LOCK true, a config stored,
during text shown. -/
def solvingState : OrchState :=
  ⟨true, some sampleConfig, false, Indicator.during⟩

/-- Claim C1: refuted by the code — `solveCaptchaRunner` never reads LOCK, so
invoking it while a cycle is already in flight (LOCK true) is not a no-op: it
still issues a config fetch and posts a second challenge to the Worker. -/
theorem solveCaptchaRunner_reentrant_double_fetch :
    solvingState.lock = true
    ∧ (solveCaptchaRunner (Except.ok sampleConfig) solvingState).2.fetches = 1
    ∧ (solveCaptchaRunner (Except.ok sampleConfig) solvingState).2.posted
        = [sampleConfig] :=
  ⟨rfl, rfl, rfl⟩

/-- Claim C2: refuted by the code — when `sendWork` rejects, the `result`
branch has no catch: the handler's promise rejects, LOCK stays true, the
status indicator stays on the during text (no error surfaced), and no token
is relayed. -/
theorem submission_failure_leaves_lock_held :
    (workerOnmessageOrch "k1" (Except.error ()) (Except.error ())
        ⟨"result", 42, "abc"⟩ solvingState).1.lock = true
    ∧ (workerOnmessageOrch "k1" (Except.error ()) (Except.error ())
        ⟨"result", 42, "abc"⟩ solvingState).1.indicator = Indicator.during
    ∧ (workerOnmessageOrch "k1" (Except.error ()) (Except.error ())
        ⟨"result", 42, "abc"⟩ solvingState).2.relayed = [] := by
  refine ⟨rfl, rfl, rfl⟩

/-- Claim C6: when the config fetch fails, the catch branch of
`solveCaptchaRunner` shows the error indicator, releases LOCK, posts nothing
to the worker, and a subsequent invocation issues a fresh config fetch. -/
theorem config_fetch_failure_recovers (s : OrchState)
    (f : Except Unit PoWConfig) :
    (solveCaptchaRunner (Except.error ()) s).1.indicator = Indicator.error
    ∧ (solveCaptchaRunner (Except.error ()) s).1.lock = false
    ∧ (solveCaptchaRunner (Except.error ()) s).2.posted = []
    ∧ (solveCaptchaRunner (Except.error ()) s).2.fetches = 1
    ∧ (solveCaptchaRunner f
        (solveCaptchaRunner (Except.error ()) s).1).2.fetches = 1 := by
  refine ⟨rfl, rfl, rfl, rfl, ?_⟩
  cases f <;> rfl

/-- Claim C7, counterexample: the Worker's `ready` message is not acted on by
the orchestrator's switch — receiving it from the idle state is a no-op and
issues no config fetch. -/
theorem ready_message_is_noop :
    workerOnmessageOrch "k1" (Except.ok sampleConfig) (Except.ok "tok")
        ⟨"ready", 0, ""⟩ idleState = (idleState, Effects.none)
    ∧ (workerOnmessageOrch "k1" (Except.ok sampleConfig) (Except.ok "tok")
        ⟨"ready", 0, ""⟩ idleState).2.fetches = 0 :=
  ⟨rfl, rfl⟩

/-- Claim C7 (amended): the very first solve cycle auto-starts on the
Worker's startup `init` message, which runs `solveCaptchaRunner` and hence
issues exactly one config fetch; the separate `ready` startup message is
ignored.  Both messages are posted at worker startup, before any challenge
is handled, so the config is still not fetched before the compute context
confirms liveness. -/
theorem init_message_triggers_first_cycle :
    (∀ (k : String) (f : Except Unit PoWConfig) (snd : Except Unit String)
        (m : WorkerMsg) (s : OrchState), m.type = "init" →
        workerOnmessageOrch k f snd m s = solveCaptchaRunner f s)
    ∧ (∀ f s, (solveCaptchaRunner f s).2.fetches = 1)
    ∧ workerStartupMessages = [⟨"ready", 0, ""⟩, ⟨"init", 0, ""⟩] := by
  refine ⟨?_, ?_, rfl⟩
  · intro k f snd m s hm
    simp [workerOnmessageOrch, hm]
  · intro f s
    cases f <;> rfl

/-- Witness for `init_message_triggers_first_cycle` at a concrete input. -/
theorem init_message_triggers_first_cycle_witness :
    workerOnmessageOrch "k1" (Except.ok sampleConfig) (Except.error ())
        ⟨"init", 0, ""⟩ idleState
      = solveCaptchaRunner (Except.ok sampleConfig) idleState :=
  init_message_triggers_first_cycle.1 "k1" (Except.ok sampleConfig)
    (Except.error ()) ⟨"init", 0, ""⟩ idleState rfl

/-- Claim C9: any worker message whose type tag is neither `init` nor
`result` (in particular `progress`, `ready`, or any unknown tag) is a no-op:
the orchestrator state is unchanged and no effect is produced. -/
theorem unknown_message_noop (k : String) (f : Except Unit PoWConfig)
    (snd : Except Unit String) (m : WorkerMsg) (s : OrchState)
    (h1 : m.type ≠ "init") (h2 : m.type ≠ "result") :
    workerOnmessageOrch k f snd m s = (s, Effects.none) := by
  simp [workerOnmessageOrch, h1, h2]

/-- Witness for `unknown_message_noop`: a `progress` message received while
solving leaves the state and effect log untouched. -/
theorem unknown_message_noop_witness :
    workerOnmessageOrch "k1" (Except.error ()) (Except.error ())
        ⟨"progress", 5, ""⟩ solvingState = (solvingState, Effects.none) :=
  unknown_message_noop "k1" (Except.error ()) (Except.error ())
    ⟨"progress", 5, ""⟩ solvingState (by decide) (by decide)

/-- Claim C4: when the stored config is present and `sendWork` succeeds, the
`result` branch relays the token exactly once, checks the checkbox, and
releases LOCK; moreover a token relay happens in no other step: never from
`solveCaptchaRunner`, and from `worker.onmessage` only on a `result` message
with a stored config and a successful submission. -/
theorem token_relay_exactly_once :
    (∀ (k : String) (f : Except Unit PoWConfig) (s : OrchState)
        (c : PoWConfig) (m : WorkerMsg) (t : String),
        s.config = some c → m.type = "result" →
        (workerOnmessageOrch k f (Except.ok t) m s).2.relayed = [t]
        ∧ (workerOnmessageOrch k f (Except.ok t) m s).1.checked = true
        ∧ (workerOnmessageOrch k f (Except.ok t) m s).1.lock = false)
    ∧ (∀ f s, (solveCaptchaRunner f s).2.relayed = [])
    ∧ (∀ k f snd m s, (workerOnmessageOrch k f snd m s).2.relayed ≠ [] →
        m.type = "result" ∧ s.config ≠ none
        ∧ ∃ t, snd = Except.ok t
            ∧ (workerOnmessageOrch k f snd m s).2.relayed = [t]) := by
  refine ⟨?_, ?_, ?_⟩
  · intro k f s c m t hc hm
    simp [workerOnmessageOrch, hm, hc]
  · intro f s
    cases f <;> rfl
  · intro k f snd m s hne
    by_cases hinit : m.type = "init"
    · exfalso
      apply hne
      cases f <;> simp [workerOnmessageOrch, hinit, solveCaptchaRunner,
        solveCaptchaRunnerAwait, solveCaptchaRunnerSync]
    · by_cases hres : m.type = "result"
      · cases hcfg : s.config with
        | none =>
            exfalso
            apply hne
            simp [workerOnmessageOrch, hinit, hres, hcfg, Effects.none]
        | some c =>
            cases snd with
            | error e =>
                exfalso
                apply hne
                simp [workerOnmessageOrch, hinit, hres, hcfg]
            | ok t =>
                refine ⟨hres, by simp [hcfg], t, rfl, ?_⟩
                simp [workerOnmessageOrch, hinit, hres, hcfg]
      · exfalso
        apply hne
        simp [workerOnmessageOrch, hinit, hres, Effects.none]

/-- Witness for `token_relay_exactly_once`: a successful cycle at concrete
inputs relays exactly the returned token, checks the box, clears LOCK. -/
theorem token_relay_exactly_once_witness :
    (workerOnmessageOrch "k1" (Except.error ()) (Except.ok "tok")
        ⟨"result", 42, "abc"⟩ solvingState).2.relayed = ["tok"]
    ∧ (workerOnmessageOrch "k1" (Except.error ()) (Except.ok "tok")
        ⟨"result", 42, "abc"⟩ solvingState).1.checked = true
    ∧ (workerOnmessageOrch "k1" (Except.error ()) (Except.ok "tok")
        ⟨"result", 42, "abc"⟩ solvingState).1.lock = false :=
  token_relay_exactly_once.1 "k1" (Except.error ()) solvingState sampleConfig
    ⟨"result", 42, "abc"⟩ "tok" rfl rfl

/-- Claim C5, counterexample: the submitted proof's `key` is taken from
`CONST.sitekey()`, not from the stored Challenge — with a widget sitekey
"site9" and a stored Challenge whose key is "k1", the submitted proof
carries "site9", not the Challenge's key. -/
theorem proof_key_not_from_challenge :
    solvingState.config = some sampleConfig
    ∧ sampleConfig.key = "k1"
    ∧ (workerOnmessageOrch "site9" (Except.error ()) (Except.ok "tok")
        ⟨"result", 42, "abc"⟩ solvingState).2.submitted
        = [⟨"site9", "salt1", 42, "abc"⟩]
    ∧ ("site9" : String) ≠ "k1" := by
  refine ⟨rfl, rfl, rfl, by decide⟩

/-- Claim C5 (amended): the proof submitted on a `result` message is built
from the widget's sitekey constant, the currently stored config's string,
and the Worker-reported nonce and digest — and it is submitted whether or
not `sendWork` then succeeds. -/
theorem proof_built_from_sitekey_and_state (k : String)
    (f : Except Unit PoWConfig) (snd : Except Unit String) (s : OrchState)
    (c : PoWConfig) (m : WorkerMsg)
    (hc : s.config = some c) (hm : m.type = "result") :
    (workerOnmessageOrch k f snd m s).2.submitted
      = [⟨k, c.string, m.nonce, m.result⟩] := by
  cases snd <;> simp [workerOnmessageOrch, hm, hc]

/-- Witness for `proof_built_from_sitekey_and_state` at concrete inputs. -/
theorem proof_built_from_sitekey_and_state_witness :
    (workerOnmessageOrch "k1" (Except.error ()) (Except.ok "tok")
        ⟨"result", 42, "abc"⟩ solvingState).2.submitted
      = [⟨"k1", "salt1", 42, "abc"⟩] :=
  proof_built_from_sitekey_and_state "k1" (Except.error ()) (Except.ok "tok")
    solvingState sampleConfig ⟨"result", 42, "abc"⟩ rfl rfl

/-- Claim C10: LOCK's write sites, exhaustively.  The synchronous prefix of
`solveCaptchaRunner` (before its first await) sets LOCK true; the fetch
success path leaves it as the prefix set it; LOCK becomes false exactly in
the runner's catch branch and at the end of the successful `result` branch;
every other step — a failed submission, a `result` with no stored config, an
`init` message (which just runs the runner), and any other message — leaves
LOCK unchanged. -/
theorem lock_write_sites :
    (∀ s, (solveCaptchaRunnerSync s).lock = true)
    ∧ (∀ f s, solveCaptchaRunner f s
        = solveCaptchaRunnerAwait f (solveCaptchaRunnerSync s))
    ∧ (∀ c s, (solveCaptchaRunnerAwait (Except.ok c) s).1.lock = s.lock)
    ∧ (∀ s, (solveCaptchaRunnerAwait (Except.error ()) s).1.lock = false)
    ∧ (∀ k f m s t, m.type = "result" → s.config ≠ none →
        (workerOnmessageOrch k f (Except.ok t) m s).1.lock = false)
    ∧ (∀ k f m s, m.type = "result" →
        (workerOnmessageOrch k f (Except.error ()) m s).1.lock = s.lock)
    ∧ (∀ k f snd m s, m.type = "result" → s.config = none →
        (workerOnmessageOrch k f snd m s).1.lock = s.lock)
    ∧ (∀ k f snd m s, m.type = "init" →
        workerOnmessageOrch k f snd m s = solveCaptchaRunner f s)
    ∧ (∀ k f snd m s, m.type ≠ "init" → m.type ≠ "result" →
        (workerOnmessageOrch k f snd m s).1.lock = s.lock) := by
  refine ⟨fun s => rfl, fun f s => rfl, fun c s => rfl, fun s => rfl,
    ?_, ?_, ?_, ?_, ?_⟩
  · intro k f m s t hm hc
    cases hcfg : s.config with
    | none => exact absurd hcfg hc
    | some c => simp [workerOnmessageOrch, hm, hcfg]
  · intro k f m s hm
    cases hcfg : s.config <;> simp [workerOnmessageOrch, hm, hcfg]
  · intro k f snd m s hm hcfg
    simp [workerOnmessageOrch, hm, hcfg]
  · intro k f snd m s hm
    simp [workerOnmessageOrch, hm]
  · intro k f snd m s h1 h2
    simp [workerOnmessageOrch, h1, h2]

/-- Witness for `lock_write_sites`: the successful `result` branch at a
concrete solving state ends with LOCK false. -/
theorem lock_write_sites_witness :
    (workerOnmessageOrch "k1" (Except.error ()) (Except.ok "tok")
        ⟨"result", 7, "d"⟩ solvingState).1.lock = false :=
  lock_write_sites.2.2.2.2.1 "k1" (Except.error ()) ⟨"result", 7, "d"⟩
    solvingState "tok" rfl (by decide)

/-- Progress messages never carry the `result` tag, so filtering a progress
burst for results yields nothing. -/
theorem filter_result_of_progress (n : Nat) :
    ((List.range n).map
        (fun k => (⟨"progress", k, ""⟩ : WorkerMsg))).filter
      (fun m => m.type == "result") = [] := by
  induction n with
  | zero => rfl
  | succ k ih =>
      rw [List.range_succ, List.map_append, List.filter_append, ih]
      rfl

/-- Claim C3: for every difficulty predicate and salt with a satisfying
nonce, the Worker's message stream for one challenge contains exactly one
terminal `result` message; the nonce it carries satisfies the predicate and
no smaller nonce does (the search starts at 0 and returns the first
satisfying nonce, hence is deterministic). -/
theorem worker_result_unique_and_minimal (digest : Nat → String)
    (meets : Nat → Bool) (h : ∃ n, meets n = true) :
    (workerSolve digest meets h).filter (fun m => m.type == "result")
      = [⟨"result", proveNonce meets h, digest (proveNonce meets h)⟩]
    ∧ meets (proveNonce meets h) = true
    ∧ ∀ m, m < proveNonce meets h → meets m = false := by
  refine ⟨?_, Nat.find_spec h, ?_⟩
  · unfold workerSolve workerHandle
    rw [List.filter_append, filter_result_of_progress]
    rfl
  · intro m hm
    have hmin := Nat.find_min h hm
    simpa using hmin

/-- Witness for `worker_result_unique_and_minimal` with the predicate
`2 ≤ n`: the found nonce is 2 and the stream has the unique result. -/
theorem worker_result_unique_and_minimal_witness :
    proveNonce (fun n => decide (2 ≤ n)) ⟨2, by decide⟩ = 2
    ∧ ((workerSolve (fun _ => "d") (fun n => decide (2 ≤ n))
          ⟨2, by decide⟩).filter (fun m => m.type == "result")
        = [⟨"result", proveNonce (fun n => decide (2 ≤ n)) ⟨2, by decide⟩,
            "d"⟩]
      ∧ (fun n => decide (2 ≤ n))
          (proveNonce (fun n => decide (2 ≤ n)) ⟨2, by decide⟩) = true
      ∧ ∀ m, m < proveNonce (fun n => decide (2 ≤ n)) ⟨2, by decide⟩ →
          (fun n => decide (2 ≤ n)) m = false) := by
  constructor
  · unfold proveNonce
    rw [Nat.find_eq_iff]
    decide
  · exact worker_result_unique_and_minimal (fun _ => "d")
      (fun n => decide (2 ≤ n)) ⟨2, by decide⟩

/-- Claim C8, counterexample: when the search primitive throws, the handler
has no catch — the Worker posts nothing at all for that request, in
particular no error event over the message channel. -/
theorem worker_throw_posts_no_error_event :
    workerHandle (Except.error ()) = []
    ∧ ¬ ∃ m ∈ workerHandle (Except.error ()), m.type = "error" := by
  refine ⟨rfl, ?_⟩
  rintro ⟨m, hm, -⟩
  simp [workerHandle] at hm

/-- Claim C8 (amended): a throwing request produces no messages (no error
event — the uncaught exception surfaces only on the platform's error
channel), and since the handler keeps no state between messages, subsequent
requests are processed exactly as if the throwing one had never arrived,
each successful one still yielding its unique `result` message. -/
theorem worker_throw_silent_and_recoverable :
    workerHandle (Except.error ()) = []
    ∧ (∀ rest, workerRun (Except.error () :: rest) = workerRun rest)
    ∧ (∀ w : ServiceWorkerWork,
        (workerHandle (Except.ok w)).filter (fun m => m.type == "result")
          = [⟨"result", w.nonce, w.result⟩]) := by
  refine ⟨rfl, ?_, ?_⟩
  · intro rest
    simp [workerRun, workerHandle]
  · intro w
    unfold workerHandle
    rw [List.filter_append, filter_result_of_progress]
    rfl

end MCaptchaWidget
